import Mathlib

/-!
Shallow embedding of the client-side session / authorization / auto-trade
logic of the P-project trading frontend (React + axios). Browser state is
modelled explicitly:

* `Store` models the browser `localStorage` key-value string store,
  with `getItem` / `setItem` / `removeItem`.
* `Json` models JavaScript values as they flow through `res.data`,
  with field access (`getField`, matching optional-chaining semantics),
  truthiness (`truthy`) and array tests (`isArray`).
* `Effect` records the observable side effects of each handler:
  `alert` notices, `navigate` calls, and outgoing network requests.

Each async handler from the source is embedded as a pure function from its
pre-state and the outcome of its remote call(s) to its post-state plus the
list of effects it performs, following the source line by line.
-/

namespace PProject

/-- The browser localStorage: a string-keyed string store
(`src/api/axiosInstance.js` and all pages read it via
`localStorage.getItem` / `setItem` / `removeItem`). -/
abbrev Store := List (String × String)

/-- `localStorage.getItem k`: the value under the first binding of `k`. -/
def getItem (s : Store) (k : String) : Option String :=
  (s.find? (fun p => p.1 == k)).map (fun p => p.2)

/-- `localStorage.setItem k v`: bind `k` to `v`, shadowing any old binding. -/
def setItem (s : Store) (k v : String) : Store :=
  (k, v) :: s.filter (fun p => p.1 != k)

/-- `localStorage.removeItem k`: drop every binding of `k`. -/
def removeItem (s : Store) (k : String) : Store :=
  s.filter (fun p => p.1 != k)

/-- JavaScript values as they appear in `res.data` and localStorage-adjacent
logic: `undefined` is the JS undefined, `num` carries an exact rational standing for
the JS number, `obj` is a field list. -/
inductive Json where
  | null : Json
  | undefined : Json
  | b : Bool → Json
  | num : ℚ → Json
  | str : String → Json
  | arr : List Json → Json
  | obj : List (String × Json) → Json

/-- JS optional-chaining field access `v?.k`: on an object, the first field
named `k` (or `undefined` when absent); on every non-object, `undefined`. -/
def Json.getField : Json → String → Json
  | .obj fs, k =>
      match fs.find? (fun p => p.1 == k) with
      | some p => p.2
      | none => .undefined
  | _, _ => .undefined

/-- JS truthiness of a value (`if (v)`, `v || d`): `null`, `undefined`,
`false`, `0` and `""` are falsy; everything else is truthy. -/
def Json.truthy : Json → Bool
  | .null => false
  | .undefined => false
  | .b x => x
  | .num q => q != 0
  | .str s => s != ""
  | .arr _ => true
  | .obj _ => true

/-- `Array.isArray v`. -/
def Json.isArray : Json → Bool
  | .arr _ => true
  | _ => false

/-- JS `a || d`: `a` when truthy, else `d`. -/
def jsOr (a d : Json) : Json :=
  if a.truthy then a else d

/-- Observable side effects of a handler: user notices (`alert`),
router navigation, and outgoing HTTP requests through the axios instance. -/
inductive Effect where
  | alert : String → Effect
  | navigate : String → Effect
  | netGet : String → Effect
  | netPut : String → Effect
  | netPost : String → Effect
deriving DecidableEq, Repr

/-- An effect is a network request (as opposed to a purely local one). -/
def Effect.isNet : Effect → Bool
  | .netGet _ => true
  | .netPut _ => true
  | .netPost _ => true
  | _ => false

/-- Outcome of a single awaited remote call: the resolved `res.data`,
or a rejection carrying the error value the catch block receives. -/
inductive FetchResult where
  | ok : Json → FetchResult
  | fail : Json → FetchResult

/-! ## Session store (`src/api/authApi.js`) -/

/-- Outcome of `POST /login`: on success the backend returns
`{ token, name }`; on failure axios rejects with an error value. -/
inductive LoginOutcome where
  | ok : String → String → LoginOutcome
  | fail : Json → LoginOutcome

/-- `loginUser(username, password)` from `src/api/authApi.js`: awaits
`POST /login`; on success writes `stuckai_token` and `stuckai_name` and
returns the response data; on failure the awaited call throws before any
write, so the store is returned untouched and the error propagates. -/
def loginUser (s : Store) (r : LoginOutcome) : Store × Except Json (String × String) :=
  match r with
  | .ok tok nm =>
      (setItem (setItem s "stuckai_token" tok) "stuckai_name" nm, .ok (tok, nm))
  | .fail e => (s, .error e)

/-- `logoutUser()` from `src/api/authApi.js`: removes `stuckai_token` and
`stuckai_name` (and nothing else); purely local. -/
def logoutUser (s : Store) : Store :=
  removeItem (removeItem s "stuckai_token") "stuckai_name"

/-- The logout button handler inlined in `MainLayout` (`Main_Layout.jsx`):
removes `stuckai_token`, `stuckai_name` and `stuckai_account`, then
navigates to `/login`; purely local, no network request. -/
def mainLayoutLogout (s : Store) : Store × List Effect :=
  (removeItem (removeItem (removeItem s "stuckai_token") "stuckai_name") "stuckai_account",
   [.navigate "/login"])

/-- `isLoggedIn` in `MainLayout`: `!!localStorage.getItem("stuckai_token")`
(a present but empty token string is falsy in JS). -/
def isLoggedIn (s : Store) : Bool :=
  match getItem s "stuckai_token" with
  | some t => t != ""
  | none => false

/-! ## Account gate (`Main_Layout.jsx` `syncAccountState`, `Account.jsx` `loadAccount`) -/

/-- `syncAccountState` in `MainLayout`: when logged out, set `hasAccount`
false and clear the persisted marker; when logged in, await
`GET /me/account` — on a response whose `has_config` is truthy, set the
flag and the marker; on a falsy `has_config` or on any failure, clear
both. Returns the new `hasAccount` flag and the new store. -/
def syncAccountState (loggedIn : Bool) (s : Store) (r : FetchResult) : Bool × Store :=
  if !loggedIn then
    (false, removeItem s "stuckai_account")
  else
    match r with
    | .ok data =>
        if (data.getField "has_config").truthy then
          (true, setItem s "stuckai_account" "true")
        else
          (false, removeItem s "stuckai_account")
    | .fail _ => (false, removeItem s "stuckai_account")

/-- `loadAccount` in `Account.jsx`: awaits `GET /me/account`; on a truthy
`has_config`, stores the response as `savedAccount`, sets `realMode` from
`real_mode`, and sets the persisted marker; on a falsy `has_config` or on
any failure, removes the marker and leaves `savedAccount` untouched.
Returns `(savedAccount, realMode, store)`. -/
def loadAccount (saved : Option Json) (realMode : Bool) (s : Store) (r : FetchResult) :
    Option Json × Bool × Store :=
  match r with
  | .ok data =>
      if (data.getField "has_config").truthy then
        (some data, (data.getField "real_mode").truthy, setItem s "stuckai_account" "true")
      else
        (saved, realMode, removeItem s "stuckai_account")
  | .fail _ => (saved, realMode, removeItem s "stuckai_account")

/-! ## Navigation guard (`Main_Layout.jsx` `guardedNavigate`) -/

/-- The `options` argument of `guardedNavigate`. -/
structure GuardOptions where
  requireLogin : Bool
  requireAccount : Bool
deriving DecidableEq, Repr

/-- `guardedNavigate(path, options)` in `MainLayout`: if login is required
and the user is logged out, alert and go to `/login`; otherwise if an
account is required and the cached flag is unset, alert and go to
`/account`; otherwise go to the requested path. -/
def guardedNavigate (loggedIn hasAccount : Bool) (path : String) (o : GuardOptions) :
    List Effect :=
  if o.requireLogin && !loggedIn then
    [.alert "로그인 후 이용할 수 있습니다.", .navigate "/login"]
  else if o.requireAccount && !hasAccount then
    [.alert "계좌 설정 후 이용할 수 있습니다.", .navigate "/account"]
  else
    [.navigate path]

/-- The six sidebar call sites of `guardedNavigate` in `MainLayout`,
with the exact options each passes (`options` defaults to both-false). -/
def mainLayoutGuardCalls : List (String × GuardOptions) :=
  [("/", ⟨false, false⟩),
   ("/dashboard", ⟨false, false⟩),
   ("/account", ⟨true, false⟩),
   ("/manual-trade", ⟨true, true⟩),
   ("/trade", ⟨true, true⟩),
   ("/risk", ⟨true, true⟩)]

/-! ## Auto-trade control (`Trade.jsx`) -/

/-- Outcome of an awaited call that matters only as success/failure. -/
inductive CallResult where
  | ok : CallResult
  | fail : CallResult

/-- `toggleAutoTrade` in `Trade.jsx`: computes `next = !enabled`, sets the
mirror to `next` optimistically, then awaits `PUT /auto-trade/config`;
on failure sets the mirror back to `!next` and alerts. Returns the
optimistic intermediate mirror value, the final mirror value, and the
effects. -/
def toggleAutoTrade (enabled : Bool) (r : CallResult) : Bool × Bool × List Effect :=
  let next := !enabled
  match r with
  | .ok => (next, next, [.netPut "/auto-trade/config"])
  | .fail => (next, !next, [.netPut "/auto-trade/config", .alert "자동매매 설정 저장 실패"])

/-- `loadAutoTradeConfig` in `Trade.jsx`: awaits `GET /auto-trade/config`;
sets the mirror to `res.data.enabled` only when that field is a boolean
(`typeof res.data.enabled === "boolean"`); otherwise, and on failure,
leaves the mirror unchanged (alerting on failure). -/
def loadAutoTradeConfig (enabled : Bool) (r : FetchResult) : Bool × List Effect :=
  match r with
  | .ok data =>
      match data.getField "enabled" with
      | .b x => (x, [.netGet "/auto-trade/config"])
      | _ => (enabled, [.netGet "/auto-trade/config"])
  | .fail _ => (enabled, [.netGet "/auto-trade/config", .alert "자동매매 상태 로드 실패"])

/-- `runAutoTrade` in `Trade.jsx`: when the mirror is off, alert and return
without any network request; otherwise `POST /trade/auto` and on success
replace `autoTradeResult` with the response (alerting completion), on
failure alert and leave the previous result untouched. -/
def runAutoTrade (enabled : Bool) (result : Option Json) (r : FetchResult) :
    Option Json × List Effect :=
  if !enabled then
    (result, [.alert "자동매매 OFF입니다."])
  else
    match r with
    | .ok data => (some data, [.netPost "/trade/auto", .alert "자동매매 1회 실행 완료"])
    | .fail _ => (result, [.netPost "/trade/auto", .alert "자동매매 실행 실패"])

/-- BUY / SELL / HOLD classification of one auto-trade result row. -/
inductive ActionClass where
  | buy : ActionClass
  | sell : ActionClass
  | hold : ActionClass
deriving DecidableEq, Repr

/-- The inline classification of `item.action` in the `autoTradeResult.map`
render of `Trade.jsx`: `action > 0.3` is BUY (매수), `action < -0.3` is
SELL (매도), everything else is HOLD (관망). -/
def classifyAction (score : ℚ) : ActionClass :=
  if score > 3 / 10 then .buy
  else if score < -(3 / 10) then .sell
  else .hold

/-! ## Read-model fetchers -/

/-- `fetchBalance` parsing in `Account.jsx`: `raw = res.data.raw || {}`;
`holdings` is `raw.output1` when it is an array, else `[]`; `summary` is
`raw.output2[0]` when `raw.output2` is an array (which is `undefined` when
that array is empty), else `{}`. Total: no branch can throw. -/
def parseBalance (data : Json) : List Json × Json :=
  let raw := jsOr (data.getField "raw") (.obj [])
  let holdings :=
    match raw.getField "output1" with
    | .arr xs => xs
    | _ => []
  let summary :=
    match raw.getField "output2" with
    | .arr xs => xs.headD .undefined
    | _ => Json.obj []
  (holdings, summary)

/-- `fetchBalance` in `Account.jsx`: awaits `GET /accounts/balance`; on
success replaces `balanceParsed` with the parsed holdings/summary pair;
on failure alerts and leaves the previous value untouched. -/
def fetchBalance (prev : Option (List Json × Json)) (r : FetchResult) :
    Option (List Json × Json) × List Effect :=
  match r with
  | .ok data => (some (parseBalance data), [.netGet "/accounts/balance"])
  | .fail _ => (prev, [.netGet "/accounts/balance", .alert "잔고 조회 실패"])

/-- `fetchPerformance` in `Trade.jsx`: awaits `GET /metrics/performance`;
on success sets `perf` to `res.data.summary` and `perfSnapshots` to
`res.data.snapshots || []`; on failure alerts and changes nothing. -/
def fetchPerformance (perf snaps : Json) (r : FetchResult) : Json × Json × List Effect :=
  match r with
  | .ok data =>
      (data.getField "summary", jsOr (data.getField "snapshots") (.arr []),
       [.netGet "/metrics/performance"])
  | .fail _ => (perf, snaps, [.netGet "/metrics/performance", .alert "성과 요약 조회 실패"])

/-- `fetchHistory` in `ManualTrade.jsx`: awaits `GET /orders/history`; on
success sets `history` to `res.data || []`; on failure alerts and leaves
the previous list untouched (the `finally` only resets a loading flag). -/
def fetchHistory (history : Json) (r : FetchResult) : Json × List Effect :=
  match r with
  | .ok data => (jsOr data (.arr []), [.netGet "/orders/history"])
  | .fail _ => (history, [.netGet "/orders/history", .alert "거래 내역 조회 실패"])

/-- `loadRisk` in `Risk.jsx`: awaits `GET /settings/risk`; on success
replaces `riskList` with the response; its catch block `catch (_) {}` is
empty, so on failure nothing changes and no notice is raised. -/
def loadRisk (riskList : Json) (r : FetchResult) : Json × List Effect :=
  match r with
  | .ok data => (data, [.netGet "/settings/risk"])
  | .fail _ => (riskList, [.netGet "/settings/risk"])

/-- Outcome of the `Promise.all` pair in `Dashboard.jsx` `loadData`:
either both the chart and the indicator responses, or a single rejection. -/
inductive PairResult where
  | ok : Json → Json → PairResult
  | fail : Json → PairResult

/-- `loadData` in `Dashboard.jsx`: awaits chart and indicator fetches
together; on success sets `candles` to `chartRes.candles || []` and
`indicator` to the indicator response; on failure alerts and leaves both
untouched. -/
def loadData (candles indicator : Json) (r : PairResult) : Json × Json × List Effect :=
  match r with
  | .ok chartRes indiRes =>
      (jsOr (chartRes.getField "candles") (.arr []), indiRes,
       [.netGet "/chart", .netGet "/indicator"])
  | .fail _ =>
      (candles, indicator,
       [.netGet "/chart", .netGet "/indicator", .alert "차트/지표 로드 실패"])

/-! ## Store lemmas -/

theorem filter_key_find_none (t : Store) (k : String) :
    (t.filter (fun q => q.1 != k)).find? (fun q => q.1 == k) = none := by
  induction t with
  | nil => rfl
  | cons p t ih =>
      rw [List.filter_cons]
      by_cases h : p.1 = k
      · have hb0 : (p.1 != k) = false := by simp [h]
        rw [hb0, if_neg Bool.false_ne_true]
        exact ih
      · have hb : (p.1 == k) = false := by simp [h]
        have hb' : (p.1 != k) = true := by simp [h]
        rw [hb', if_pos rfl, List.find?_cons, hb]
        exact ih

theorem getItem_removeItem_self (s : Store) (k : String) :
    getItem (removeItem s k) k = none := by
  unfold getItem removeItem
  rw [filter_key_find_none]
  rfl

theorem getItem_setItem_self (s : Store) (k v : String) :
    getItem (setItem s k v) k = some v := by
  simp [getItem, setItem, List.find?]

theorem getItem_removeItem_ne (s : Store) (k k' : String) (h : k ≠ k') :
    getItem (removeItem s k') k = getItem s k := by
  induction s with
  | nil => rfl
  | cons p t ih =>
      by_cases hp : p.1 = k'
      · have h1 : (p.1 != k') = false := by simp [hp]
        have h2 : (p.1 == k) = false := by
          rw [hp]
          exact beq_eq_false_iff_ne.mpr (Ne.symm h)
        calc getItem (removeItem (p :: t) k') k
            = getItem (removeItem t k') k := by
              unfold removeItem
              rw [List.filter_cons, h1, if_neg Bool.false_ne_true]
          _ = getItem t k := ih
          _ = getItem (p :: t) k := by
              unfold getItem
              simp only [List.find?_cons, h2]
      · have h1 : (p.1 != k') = true := by simp [hp]
        by_cases hk : p.1 = k
        · have h2 : (p.1 == k) = true := by simp [hk]
          unfold removeItem getItem
          rw [List.filter_cons, h1, if_pos rfl]
          simp only [List.find?_cons, h2]
        · have h2 : (p.1 == k) = false := by simp [hk]
          unfold removeItem getItem at ih ⊢
          rw [List.filter_cons, h1, if_pos rfl]
          simp only [List.find?_cons, h2]
          exact ih

/-- An effect is a user-visible `alert` notice. -/
def Effect.isAlert : Effect → Bool
  | .alert _ => true
  | _ => false

/-! ## Claim theorems -/

/-- C1: with a single `toggleAutoTrade` in flight, the optimistic mirror is
the submitted (negated) value; when the `PUT /auto-trade/config` call
succeeds the final mirror equals that submitted value, and when it fails
the final mirror equals the pre-toggle value and a failure alert is
surfaced. -/
theorem autoTrade_toggle_reconciles (prev : Bool) :
    (∀ r, (toggleAutoTrade prev r).1 = !prev) ∧
    (toggleAutoTrade prev .ok).2.1 = !prev ∧
    (toggleAutoTrade prev .fail).2.1 = prev ∧
    Effect.alert "자동매매 설정 저장 실패" ∈ (toggleAutoTrade prev .fail).2.2 := by
  refine ⟨?_, rfl, ?_, ?_⟩
  · intro r
    cases r <;> rfl
  · cases prev <;> rfl
  · simp [toggleAutoTrade]

/-- C2 counterexample: with no session token (guard state LoggedOut, so the
cached account flag is also false), a navigation whose options are
`requireAccount = true` but `requireLogin = false` is redirected to the
account-setup page, not to the login page: the login branch only fires when
`requireLogin` is set. -/
theorem guard_requireAccount_only_counterexample :
    Effect.navigate "/account" ∈
      guardedNavigate false false "/manual-trade" ⟨false, true⟩ ∧
    Effect.navigate "/login" ∉
      guardedNavigate false false "/manual-trade" ⟨false, true⟩ := by
  decide

/-- C2 (amended): for every navigation whose options set both
`requireLogin` and `requireAccount` — which is exactly what every
account-gated sidebar call site in `MainLayout` passes — the LoggedOut
state always yields the login redirect and never the account-setup
redirect; and indeed every call site with `requireAccount` also sets
`requireLogin`. -/
theorem guard_login_before_account (b : Bool) (path : String) :
    guardedNavigate false b path ⟨true, true⟩ =
      [.alert "로그인 후 이용할 수 있습니다.", .navigate "/login"] ∧
    mainLayoutGuardCalls.all (fun c => !c.2.requireAccount || c.2.requireLogin) = true :=
  ⟨rfl, by decide⟩

/-- C3: an Account Gate refresh whose backend query fails yields
`hasAccount = false` in `MainLayout.syncAccountState` and clears the
persisted `stuckai_account` marker, whatever the previous store held; and
`Account.loadAccount` likewise clears the marker on failure (leaving its
own `savedAccount` untouched). -/
theorem accountGate_refresh_fail_closed (s : Store) (e : Json) :
    (syncAccountState true s (.fail e)).1 = false ∧
    getItem (syncAccountState true s (.fail e)).2 "stuckai_account" = none ∧
    (∀ saved realMode,
      (loadAccount saved realMode s (.fail e)).1 = saved ∧
      getItem (loadAccount saved realMode s (.fail e)).2.2 "stuckai_account" = none) := by
  refine ⟨rfl, ?_, ?_⟩
  · exact getItem_removeItem_self s _
  · intro saved rm
    exact ⟨rfl, getItem_removeItem_self s _⟩

/-- C4: balance parsing never raises; when the response's `raw.output2`
secondary array is present but empty, the parsed summary is `undefined`,
an empty/default record in the sense that every field access on it yields
`undefined` (the renderer reads it only through optional chaining); and
when the primary array `raw.output1` is absent, the parsed holdings list is
empty. -/
theorem balance_parse_tolerates_missing (data : Json) :
    ((Json.getField data "raw").truthy = true →
      Json.getField (Json.getField data "raw") "output2" = Json.arr [] →
      (parseBalance data).2 = Json.undefined ∧
      ∀ k, Json.getField (parseBalance data).2 k = Json.undefined) ∧
    (Json.getField (Json.getField data "raw") "output1" = Json.undefined →
      (parseBalance data).1 = []) := by
  constructor
  · intro htr h2
    have hs : (parseBalance data).2 = Json.undefined := by
      simp only [parseBalance, jsOr, htr, if_true, h2]
      rfl
    refine ⟨hs, ?_⟩
    intro k
    rw [hs]
    rfl
  · intro h1
    by_cases htr : (Json.getField data "raw").truthy = true
    · simp only [parseBalance, jsOr, htr, if_true, h1]
    · have htr' : (Json.getField data "raw").truthy = false := by
        simpa using htr
      simp only [parseBalance, jsOr, htr', Bool.false_eq_true, if_false]
      rfl

/-- C4 witness: a concrete response whose `raw` object carries an empty
`output2` and no `output1` parses to an undefined summary (with every
field access undefined) and an empty holdings list. -/
theorem balance_parse_tolerates_missing_witness :
    (parseBalance (Json.obj [("raw", Json.obj [("output2", Json.arr [])])])).2 =
      Json.undefined ∧
    Json.getField
      (parseBalance (Json.obj [("raw", Json.obj [("output2", Json.arr [])])])).2
      "dnca_tot_amt" = Json.undefined ∧
    (parseBalance (Json.obj [("raw", Json.obj [("output2", Json.arr [])])])).1 = [] := by
  have h := balance_parse_tolerates_missing
    (Json.obj [("raw", Json.obj [("output2", Json.arr [])])])
  have hs := h.1 rfl rfl
  exact ⟨hs.1, hs.2 "dnca_tot_amt", h.2 rfl⟩

/-- C5 counterexample: `logoutUser` — the session store's named logout
operation in `authApi.js` — invoked on a store holding the persisted
account-gate marker leaves that marker in place: it clears only the token
and the display name, not all three keys. -/
theorem logoutUser_keeps_account_marker :
    getItem (logoutUser [("stuckai_account", "true")]) "stuckai_account" =
      some "true" := by
  decide

/-- C5 (amended): the inline logout button handler in `MainLayout` clears
all three persisted keys (token, display name, account-gate marker) with
no network effect, always succeeding; the `logoutUser` helper in
`authApi.js` clears only the token and the display name and leaves the
account-gate marker exactly as it was. -/
theorem logout_clears_session (s : Store) :
    getItem (mainLayoutLogout s).1 "stuckai_token" = none ∧
    getItem (mainLayoutLogout s).1 "stuckai_name" = none ∧
    getItem (mainLayoutLogout s).1 "stuckai_account" = none ∧
    (mainLayoutLogout s).2.all (fun e => !e.isNet) = true ∧
    getItem (logoutUser s) "stuckai_token" = none ∧
    getItem (logoutUser s) "stuckai_name" = none ∧
    getItem (logoutUser s) "stuckai_account" = getItem s "stuckai_account" := by
  refine ⟨?_, ?_, ?_, rfl, ?_, ?_, ?_⟩
  · rw [show (mainLayoutLogout s).1 =
        removeItem (removeItem (removeItem s "stuckai_token") "stuckai_name")
          "stuckai_account" from rfl]
    rw [getItem_removeItem_ne _ _ _ (by decide),
        getItem_removeItem_ne _ _ _ (by decide)]
    exact getItem_removeItem_self s _
  · rw [show (mainLayoutLogout s).1 =
        removeItem (removeItem (removeItem s "stuckai_token") "stuckai_name")
          "stuckai_account" from rfl]
    rw [getItem_removeItem_ne _ _ _ (by decide)]
    exact getItem_removeItem_self _ _
  · exact getItem_removeItem_self _ _
  · rw [show logoutUser s =
        removeItem (removeItem s "stuckai_token") "stuckai_name" from rfl]
    rw [getItem_removeItem_ne _ _ _ (by decide)]
    exact getItem_removeItem_self s _
  · exact getItem_removeItem_self _ _
  · rw [show logoutUser s =
        removeItem (removeItem s "stuckai_token") "stuckai_name" from rfl]
    rw [getItem_removeItem_ne _ _ _ (by decide),
        getItem_removeItem_ne _ _ _ (by decide)]

/-- C6 counterexample: a failed risk-rules fetch surfaces no notice at
all — `loadRisk`'s catch block is empty — so its failure effects consist of
the network request alone, with no alert. -/
theorem loadRisk_fails_silently :
    loadRisk (Json.arr []) (.fail Json.null) =
      (Json.arr [], [Effect.netGet "/settings/risk"]) ∧
    (loadRisk (Json.arr []) (.fail Json.null)).2.all (fun e => !e.isAlert) = true := by
  exact ⟨rfl, by decide⟩

/-- C6 (amended): every modelled read-model fetcher (performance, trade
history, balance, chart/indicators, risk rules) leaves its previously
displayed value untouched when the fetch fails; the performance, history,
balance and chart fetchers each surface an alert, while the risk-rules
fetcher fails silently, raising no notice. -/
theorem readmodel_fetch_fail_preserves (e : Json)
    (perf snaps hist risk cand ind : Json) (bal : Option (List Json × Json)) :
    (fetchPerformance perf snaps (.fail e)).1 = perf ∧
    (fetchPerformance perf snaps (.fail e)).2.1 = snaps ∧
    Effect.alert "성과 요약 조회 실패" ∈ (fetchPerformance perf snaps (.fail e)).2.2 ∧
    (fetchHistory hist (.fail e)).1 = hist ∧
    Effect.alert "거래 내역 조회 실패" ∈ (fetchHistory hist (.fail e)).2 ∧
    (fetchBalance bal (.fail e)).1 = bal ∧
    Effect.alert "잔고 조회 실패" ∈ (fetchBalance bal (.fail e)).2 ∧
    (loadData cand ind (.fail e)).1 = cand ∧
    (loadData cand ind (.fail e)).2.1 = ind ∧
    Effect.alert "차트/지표 로드 실패" ∈ (loadData cand ind (.fail e)).2.2 ∧
    (loadRisk risk (.fail e)).1 = risk ∧
    (loadRisk risk (.fail e)).2.all (fun x => !x.isAlert) = true := by
  refine ⟨rfl, rfl, ?_, rfl, ?_, rfl, ?_, rfl, rfl, ?_, rfl, rfl⟩
  · simp [fetchPerformance]
  · simp [fetchHistory]
  · simp [fetchBalance]
  · simp [loadData]

/-- C7: `runAutoTrade` invoked while the mirror is off refuses locally —
whatever the (never-consulted) backend outcome would have been, the
previous result is untouched, the only effect is the refusal alert, and in
particular no network request is issued. -/
theorem runOnce_disabled_no_network (result : Option Json) (r : FetchResult) :
    (runAutoTrade false result r).1 = result ∧
    (runAutoTrade false result r).2 = [Effect.alert "자동매매 OFF입니다."] ∧
    (runAutoTrade false result r).2.all (fun e => !e.isNet) = true :=
  ⟨rfl, rfl, rfl⟩

/-- C8: the BUY/SELL/HOLD classification of a result row is the pure total
function `classifyAction` of the row's action score alone: scores above
3/10 classify BUY, scores below -(3/10) classify SELL, and everything in
between — both boundaries included, the comparisons being strict — is
HOLD; the spec's sample scores behave accordingly. -/
theorem classifyAction_pure_total (s : ℚ) :
    (s > 3 / 10 → classifyAction s = .buy) ∧
    (s < -(3 / 10) → classifyAction s = .sell) ∧
    (-(3 / 10) ≤ s → s ≤ 3 / 10 → classifyAction s = .hold) ∧
    classifyAction (3 / 10) = .hold ∧
    classifyAction (-(3 / 10)) = .hold ∧
    classifyAction (5 / 10) = .buy ∧
    classifyAction (-(5 / 10)) = .sell ∧
    classifyAction 0 = .hold := by
  refine ⟨?_, ?_, ?_, by norm_num [classifyAction], by norm_num [classifyAction],
    by norm_num [classifyAction], by norm_num [classifyAction],
    by norm_num [classifyAction]⟩
  · intro h
    simp [classifyAction, h]
  · intro h
    have h' : ¬ s > 3 / 10 := by linarith
    simp [classifyAction, h, h']
  · intro h1 h2
    have h' : ¬ s > 3 / 10 := by linarith
    have h'' : ¬ s < -(3 / 10) := by linarith
    simp [classifyAction, h', h'']

/-- C8 witness: the classification theorem applied at the concrete scores
2/5, -(2/5) and 1/10. -/
theorem classifyAction_pure_total_witness :
    classifyAction (2 / 5) = .buy ∧
    classifyAction (-(2 / 5)) = .sell ∧
    classifyAction (1 / 10) = .hold :=
  ⟨(classifyAction_pure_total (2 / 5)).1 (by norm_num),
   (classifyAction_pure_total (-(2 / 5))).2.1 (by norm_num),
   (classifyAction_pure_total (1 / 10)).2.2.1 (by norm_num) (by norm_num)⟩

/-- C9: a failed `loginUser` call propagates the backend-provided error
value unchanged and leaves the session store exactly as it was — no token
and no display name are written. -/
theorem login_fail_leaves_store (s : Store) (e : Json) :
    loginUser s (.fail e) = (s, Except.error e) := rfl

/-- C10: after the initial `loadAutoTradeConfig` on mount (initial mirror
false), the mirror equals the backend's `enabled` field exactly when the
load succeeded and that field is a boolean; on a non-boolean `enabled`
field or on a failed load the mirror keeps its initial false value (the
failure also surfacing an alert). -/
theorem autoTrade_initial_load (data : Json) :
    (∀ x, Json.getField data "enabled" = Json.b x →
      (loadAutoTradeConfig false (.ok data)).1 = x) ∧
    ((∀ x, Json.getField data "enabled" ≠ Json.b x) →
      (loadAutoTradeConfig false (.ok data)).1 = false) ∧
    (∀ e, (loadAutoTradeConfig false (.fail e)).1 = false) ∧
    (∀ e, Effect.alert "자동매매 상태 로드 실패" ∈ (loadAutoTradeConfig false (.fail e)).2) := by
  refine ⟨?_, ?_, fun e => rfl, fun e => ?_⟩
  · intro x h
    simp only [loadAutoTradeConfig, h]
  · intro h
    cases hc : Json.getField data "enabled" with
    | b x => exact absurd hc (h x)
    | null => simp only [loadAutoTradeConfig, hc]
    | undefined => simp only [loadAutoTradeConfig, hc]
    | num q => simp only [loadAutoTradeConfig, hc]
    | str t => simp only [loadAutoTradeConfig, hc]
    | arr xs => simp only [loadAutoTradeConfig, hc]
    | obj fs => simp only [loadAutoTradeConfig, hc]
  · simp [loadAutoTradeConfig]

/-- C10 witness: a successful load whose `enabled` is the boolean true
sets the mirror true; a successful load whose `enabled` is the number 1
(not a boolean) leaves the mirror false. -/
theorem autoTrade_initial_load_witness :
    (loadAutoTradeConfig false (.ok (Json.obj [("enabled", Json.b true)]))).1 = true ∧
    (loadAutoTradeConfig false (.ok (Json.obj [("enabled", Json.num 1)]))).1 = false := by
  constructor
  · exact (autoTrade_initial_load (Json.obj [("enabled", Json.b true)])).1 true rfl
  · refine (autoTrade_initial_load (Json.obj [("enabled", Json.num 1)])).2.1 ?_
    intro x h
    rw [show Json.getField (Json.obj [("enabled", Json.num 1)]) "enabled" =
        Json.num 1 from rfl] at h
    exact Json.noConfusion h

end PProject
